import Mathlib

/-!
Verification of the glt-timer stage-timer core: the shared `StageTimer`
record, the admin controller actions (`startTimer`, `pauseTimer`,
`resetTimer`, `updateDuration`), the two countdown projectors
(`computeRemaining` on the display page, `getRemainingTime` on the admin
page), the clock-offset estimator (`computeOffset` on the display page)
and the record-fetch / lazy-creation paths (`fetchTimer` on the admin
page, `loadTimer` on the display page).

Shallow embedding conventions:
- The TypeScript `start_time` field is an ISO-8601 string in the source;
  every use converts it with `new Date(s).getTime()` to a millisecond
  epoch value, so it is embedded directly as `Option Int` milliseconds.
- All instants (`Date.now()`, the `currentTime` React state, the value
  carried by `/api/time`) are `Int` milliseconds and are passed to the
  embedded functions as explicit arguments.
- JavaScript `Math.floor(x / 1000)` on integer `x` is floor division,
  embedded as `Int.fdiv x 1000`.
- JavaScript numbers reaching these functions are integers (epoch
  milliseconds, second counts, `parseInt` results), embedded as `Int`.
-/

namespace GltTimer

/-- The `status` field of the shared record: `"running" | "paused" | "stopped"`. -/
inductive TimerStatus where
  | running
  | paused
  | stopped
deriving DecidableEq, Repr

/-- The shared `StageTimer` record (the spec's TimerRecord), as declared in
the admin page: `id`, `duration` (seconds), `start_time` (nullable
timestamp, embedded as epoch milliseconds) and `status`. -/
structure StageTimer where
  id : Int
  duration : Int
  start_time : Option Int
  status : TimerStatus
deriving DecidableEq, Repr

/-- The data-model invariant of the spec: `duration >= 0` and
`start_time` is non-null iff `status == running`. -/
def TimerInv (r : StageTimer) : Prop :=
  0 ≤ r.duration ∧ (r.start_time.isSome = true ↔ r.status = TimerStatus.running)

instance (r : StageTimer) : Decidable (TimerInv r) := by
  unfold TimerInv; infer_instance

/-- Longest leading run of decimal digits of a character list, accumulated
as a number; `none` when the list starts with no digit at all. -/
def leadingDigits : List Char → Option Nat → Option Nat
  | [], acc => acc
  | c :: cs, acc =>
    if c.isDigit then
      leadingDigits cs (some ((acc.getD 0) * 10 + (c.toNat - 48)))
    else acc

/-- Drop leading whitespace characters (space, tab, newline, carriage return). -/
def skipWs : List Char → List Char
  | [] => []
  | c :: cs =>
    if c = ' ' ∨ c = '\t' ∨ c = '\n' ∨ c = '\r' then skipWs cs else c :: cs

/-- JavaScript `parseInt(s)` in base 10, as used on `minutesInput`:
skip leading whitespace, take an optional sign, then the longest prefix
of decimal digits; `none` models the `NaN` result when that prefix is
empty. (The hexadecimal `0x` form of `parseInt` is not modelled; the
inputs here come from a numeric form field.) -/
def jsParseInt (s : String) : Option Int :=
  match skipWs s.toList with
  | '-' :: rest => (leadingDigits rest none).map (fun n => -(n : Int))
  | '+' :: rest => (leadingDigits rest none).map (fun n => (n : Int))
  | cs => (leadingDigits cs none).map (fun n => (n : Int))

/-- JavaScript `Math.round`: `⌊x + 0.5⌋` (half-values round toward +∞). -/
def jsRound (q : ℚ) : Int := ⌊q + 1 / 2⌋

/-- Admin page `startTimer`: no-op unless `duration > 0`; otherwise sets
`status = "running"` and `start_time` to the current instant
(unconditionally, even when already running). -/
def startTimer (r : StageTimer) (nowMs : Int) : StageTimer :=
  if r.duration ≤ 0 then r
  else { r with status := TimerStatus.running, start_time := some nowMs }

/-- Admin page `pauseTimer`: no-op when `start_time` is null; otherwise
bakes in the elapsed time (`duration := max 0 (duration - elapsed)`),
clears `start_time` and sets `status = "paused"`. -/
def pauseTimer (r : StageTimer) (nowMs : Int) : StageTimer :=
  match r.start_time with
  | none => r
  | some startMs =>
    let elapsed := Int.fdiv (nowMs - startMs) 1000
    let remaining := max 0 (r.duration - elapsed)
    { r with status := TimerStatus.paused, start_time := none, duration := remaining }

/-- Admin page `resetTimer`: sets `status = "stopped"` and clears
`start_time`; the update payload names no other field. -/
def resetTimer (r : StageTimer) : StageTimer :=
  { r with status := TimerStatus.stopped, start_time := none }

/-- Admin page `updateDuration`: parses the minutes input with
`parseInt`; a `NaN` result is rejected with no mutation, otherwise
`duration := mins * 60` (no other field in the update payload). -/
def updateDuration (r : StageTimer) (minutesInput : String) : StageTimer :=
  match jsParseInt minutesInput with
  | none => r
  | some mins => { r with duration := mins * 60 }

/-- Admin page `getRemainingTime`: returns `duration` unless the record
is running with a non-null `start_time`, in which case it returns
`max 0 (duration - ⌊(currentTime - start)/1000⌋)`. -/
def getRemainingTime (t : StageTimer) (currentTime : Int) : Int :=
  if t.status ≠ TimerStatus.running ∨ t.start_time = none then t.duration
  else
    match t.start_time with
    | none => t.duration
    | some startMs => max 0 (t.duration - Int.fdiv (currentTime - startMs) 1000)

/-- Display page `computeRemaining`: when running with a non-null
`start_time`, `max 0 (duration - ⌊((localNow + offsetMs) - start)/1000⌋)`;
otherwise `max 0 duration`. -/
def computeRemaining (t : StageTimer) (offsetMs : Int) (localNow : Int) : Int :=
  match t.start_time with
  | some startMs =>
    if t.status = TimerStatus.running then
      max 0 (t.duration - Int.fdiv ((localNow + offsetMs) - startMs) 1000)
    else max 0 t.duration
  | none => max 0 t.duration

/-- Display page `computeOffset`: `serverMs - Math.round((t0 + t1) / 2)`. -/
def computeOffset (t0 t1 serverMs : Int) : Int :=
  serverMs - jsRound (((t0 : ℚ) + (t1 : ℚ)) / 2)

/-- The default record the admin page inserts on `PGRST116` (row absent):
`id = 1`, `duration = 300`, `start_time = null`, `status = "stopped"`. -/
def defaultTimer : StageTimer :=
  { id := 1, duration := 300, start_time := none, status := TimerStatus.stopped }

/-- Admin page `fetchTimer` acting on the shared store, abstracted as
`Option StageTimer`: when the row exists it is fetched; when absent
(`PGRST116`) the default record is inserted and used. Returns the store
after the call and the locally cached record. -/
def fetchTimer (store : Option StageTimer) : Option StageTimer × Option StageTimer :=
  match store with
  | some r => (some r, some r)
  | none => (some defaultTimer, some defaultTimer)

/-- Display page `loadTimer`: fetches the row and updates the local
record only when data came back (`if (data) setTimer(data)`); it never
inserts and surfaces no error. Returns the store after the call and the
new local record (`current` is the local record before the call). -/
def loadTimer (store : Option StageTimer) (current : Option StageTimer) :
    Option StageTimer × Option StageTimer :=
  match store with
  | some r => (store, some r)
  | none => (store, current)


/-- Floor division by 1000 agrees with Euclidean division, since the divisor
is positive; lets `omega` reason about elapsed-seconds arithmetic. -/
theorem fdiv_thousand (x : Int) : Int.fdiv x 1000 = x / 1000 :=
  Int.fdiv_eq_ediv x (by norm_num)

/-- Half of an integer sum, rounded JS-style, as an integer floor division. -/
theorem jsRound_half (a b : Int) : jsRound (((a : ℚ) + (b : ℚ)) / 2) = (a + b + 1) / 2 := by
  unfold jsRound
  rw [show ((a : ℚ) + (b : ℚ)) / 2 + 1 / 2 = ((a + b + 1 : Int) : ℚ) / ((2 : ℕ) : ℚ) by
    push_cast; ring]
  rw [Rat.floor_intCast_div_natCast]
  norm_num

/-- C1: for every TimerRecord (`duration >= 0` per the data model), both
projectors return a non-negative integer; when the record is not running
they return `max 0 duration`, and when it is running with a non-null
`start_time` they return `max 0 (duration - ⌊(referenceNow - start)/1000⌋)`,
where the display projector reads `referenceNow = localNow + offsetMs` and
the admin projector reads its `currentTime` state directly. -/
theorem projector_correct (t : StageTimer) (offsetMs localNow currentTime : Int)
    (hd : 0 ≤ t.duration) :
    0 ≤ computeRemaining t offsetMs localNow ∧
    0 ≤ getRemainingTime t currentTime ∧
    (t.status ≠ TimerStatus.running →
      computeRemaining t offsetMs localNow = max 0 t.duration ∧
      getRemainingTime t currentTime = max 0 t.duration) ∧
    (∀ s, t.status = TimerStatus.running → t.start_time = some s →
      computeRemaining t offsetMs localNow =
        max 0 (t.duration - Int.fdiv ((localNow + offsetMs) - s) 1000) ∧
      getRemainingTime t currentTime =
        max 0 (t.duration - Int.fdiv (currentTime - s) 1000)) := by
  obtain ⟨i, d, st, ss⟩ := t
  simp only [computeRemaining, getRemainingTime] at *
  cases st <;> cases ss <;> simp_all

/-- Witness for C1 at a concrete stopped record and a concrete running record. -/
theorem projector_correct_witness :
    (0 ≤ computeRemaining defaultTimer 0 0 ∧
      getRemainingTime defaultTimer 5 = max 0 (300 : Int)) ∧
    getRemainingTime ⟨1, 120, some 0, TimerStatus.running⟩ 65000 =
      max 0 (120 - Int.fdiv (65000 - 0) 1000) := by
  refine ⟨⟨(projector_correct defaultTimer 0 0 5 (by decide)).1, ?_⟩, ?_⟩
  · exact ((projector_correct defaultTimer 0 0 5 (by decide)).2.2.1 (by decide)).2
  · exact ((projector_correct ⟨1, 120, some 0, TimerStatus.running⟩ 0 0 65000
      (by decide)).2.2.2 0 rfl rfl).2

/-- C2 (failing input): `updateDuration` on the operator input string "-1"
turns a record satisfying the data-model invariant into one with
`duration = -60 < 0`, so the invariant is not preserved by every action. -/
theorem updateDuration_breaks_invariant :
    TimerInv defaultTimer ∧
    updateDuration defaultTimer "-1" =
      { id := 1, duration := -60, start_time := none, status := TimerStatus.stopped } ∧
    ¬ TimerInv (updateDuration defaultTimer "-1") := by
  decide

/-- C3 (failing inputs): `updateDuration` only rejects inputs whose
`parseInt` is `NaN`; the string "-5" is not a non-negative integer yet
mutates the record to `duration = -300`, and "3.5" is not an integer yet
mutates it to `duration = 180`. -/
theorem updateDuration_accepts_invalid :
    jsParseInt "-5" = some (-5) ∧
    updateDuration ⟨1, 300, none, TimerStatus.stopped⟩ "-5" =
      { id := 1, duration := -300, start_time := none, status := TimerStatus.stopped } ∧
    jsParseInt "3.5" = some 3 ∧
    updateDuration ⟨1, 300, none, TimerStatus.stopped⟩ "3.5" =
      { id := 1, duration := 180, start_time := none, status := TimerStatus.stopped } := by
  decide

/-- C4: on a record satisfying the data-model invariant, `pauseTimer` is a
no-op unless the record is running; when running with `start_time = s` it
sets `duration := max 0 (duration - ⌊(now - s)/1000⌋)`, clears `start_time`
and sets `status := paused`; in particular pausing a running 100-second
record 30000 ms after its start time leaves `⟨duration 70, null, paused⟩`. -/
theorem pauseTimer_spec (r : StageTimer) (nowMs : Int) (hinv : TimerInv r) :
    (r.status ≠ TimerStatus.running → pauseTimer r nowMs = r) ∧
    (∀ s, r.start_time = some s →
      pauseTimer r nowMs =
        { r with duration := max 0 (r.duration - Int.fdiv (nowMs - s) 1000),
                 start_time := none, status := TimerStatus.paused }) ∧
    (∀ T, pauseTimer ⟨1, 100, some T, TimerStatus.running⟩ (T + 30000) =
      ⟨1, 70, none, TimerStatus.paused⟩) := by
  obtain ⟨hd, hiff⟩ := hinv
  refine ⟨?_, ?_, ?_⟩
  · intro hns
    cases hst : r.start_time with
    | none => simp [pauseTimer, hst]
    | some s => simp [hst] at hiff; exact absurd hiff hns
  · intro s hst
    simp [pauseTimer, hst]
  · intro T
    simp [pauseTimer]

/-- Witness for C4 at a concrete running record. -/
theorem pauseTimer_spec_witness :
    pauseTimer ⟨1, 100, some 0, TimerStatus.running⟩ (0 + 30000) =
      ⟨1, 70, none, TimerStatus.paused⟩ :=
  (pauseTimer_spec ⟨1, 100, some 0, TimerStatus.running⟩ (0 + 30000) (by decide)).2.2 0

/-- C5: `startTimer` is a no-op when `duration <= 0`; otherwise — whatever
the current status, so re-issuing it while running rebases the baseline —
it sets `status := running` and `start_time := nowMs`; starting a stopped
120-second record at reference time T makes both projectors report 55 at
T+65000 ms and 0 (not negative) at T+130000 ms. -/
theorem startTimer_spec (r : StageTimer) (nowMs : Int) :
    (r.duration ≤ 0 → startTimer r nowMs = r) ∧
    (0 < r.duration →
      startTimer r nowMs = { r with status := TimerStatus.running, start_time := some nowMs }) ∧
    (∀ T, getRemainingTime (startTimer ⟨1, 120, none, TimerStatus.stopped⟩ T) (T + 65000) = 55 ∧
      getRemainingTime (startTimer ⟨1, 120, none, TimerStatus.stopped⟩ T) (T + 130000) = 0 ∧
      computeRemaining (startTimer ⟨1, 120, none, TimerStatus.stopped⟩ T) 0 (T + 65000) = 55 ∧
      computeRemaining (startTimer ⟨1, 120, none, TimerStatus.stopped⟩ T) 0 (T + 130000) = 0) := by
  refine ⟨fun h => by simp [startTimer, h], fun h => by simp [startTimer, not_le.mpr h, h.not_le], ?_⟩
  intro T
  refine ⟨?_, ?_, ?_, ?_⟩ <;> simp [startTimer, getRemainingTime, computeRemaining]

/-- Witness for C5 at a concrete stopped record. -/
theorem startTimer_spec_witness :
    startTimer ⟨1, 120, none, TimerStatus.stopped⟩ 9 =
      ⟨1, 120, some 9, TimerStatus.running⟩ :=
  (startTimer_spec ⟨1, 120, none, TimerStatus.stopped⟩ 9).2.1 (by decide)

/-- C6: the display page's offset estimate is `serverMs` minus the
mathematical rounding of the midpoint `(t0 + t1)/2`; on `t0 = 1000`,
`t1 = 1200`, `serverMs = 2150` it is `1050`. -/
theorem computeOffset_spec (t0 t1 serverMs : Int) :
    computeOffset t0 t1 serverMs = serverMs - round (((t0 : ℚ) + (t1 : ℚ)) / 2) ∧
    computeOffset 1000 1200 2150 = 1050 := by
  constructor
  · unfold computeOffset jsRound
    rw [round_eq]
  · rw [computeOffset, jsRound_half]
    norm_num

/-- C8: `resetTimer` sets `status := stopped` and `start_time := null` and
changes nothing else: `duration` and `id` are exactly preserved. -/
theorem resetTimer_spec (r : StageTimer) :
    resetTimer r = { r with status := TimerStatus.stopped, start_time := none } ∧
    (resetTimer r).duration = r.duration ∧ (resetTimer r).id = r.id := by
  refine ⟨rfl, rfl, rfl⟩

/-- C9: the admin fetch inserts the default record `⟨1, 300, null, stopped⟩`
exactly when the store is empty (fetching an existing record inserts
nothing), while the display fetch never writes the store and keeps its
current local record when nothing is found. -/
theorem fetch_creates_default :
    fetchTimer none = (some defaultTimer, some defaultTimer) ∧
    defaultTimer = { id := 1, duration := 300, start_time := none,
                     status := TimerStatus.stopped } ∧
    (∀ r, fetchTimer (some r) = (some r, some r)) ∧
    (∀ cur, loadTimer none cur = (none, cur)) ∧
    (∀ r cur, loadTimer (some r) cur = (some r, some r)) := by
  refine ⟨rfl, rfl, fun r => rfl, fun cur => rfl, fun r cur => rfl⟩

/-- C10: when `duration > 0` (so `startTimer` proceeds), the update writes
only `status` and `start_time`: `duration` and `id` are exactly preserved. -/
theorem startTimer_frame (r : StageTimer) (nowMs : Int) (h : 0 < r.duration) :
    (startTimer r nowMs).duration = r.duration ∧ (startTimer r nowMs).id = r.id := by
  simp [startTimer, not_le.mpr h]

/-- Witness for C10 at a concrete record. -/
theorem startTimer_frame_witness :
    (startTimer ⟨1, 120, none, TimerStatus.stopped⟩ 7).duration = 120 ∧
    (startTimer ⟨1, 120, none, TimerStatus.stopped⟩ 7).id = 1 :=
  startTimer_frame ⟨1, 120, none, TimerStatus.stopped⟩ 7 (by decide)

/-- C7: pausing a running record at reference time t and immediately
starting it again at the same t yields a record whose projected remaining
time at every later reference time u differs from the never-paused
projection by at most one second: pause loses and gains no time. -/
theorem pause_start_roundtrip (r : StageTimer) (T0 t u : Int)
    (hs : r.status = TimerStatus.running) (hst : r.start_time = some T0) (htu : t ≤ u) :
    |getRemainingTime (startTimer (pauseTimer r t) t) u - getRemainingTime r u| ≤ 1 := by
  obtain ⟨i, d, st, ss⟩ := r
  simp only at hs hst
  subst hs
  subst hst
  simp only [pauseTimer, startTimer, getRemainingTime, fdiv_thousand]
  rw [abs_le]
  split_ifs <;> simp_all <;> constructor <;> omega

/-- Witness for C7 at a concrete running record. -/
theorem pause_start_roundtrip_witness :
    |getRemainingTime
        (startTimer (pauseTimer ⟨1, 100, some 0, TimerStatus.running⟩ 30000) 30000) 65000 -
      getRemainingTime ⟨1, 100, some 0, TimerStatus.running⟩ 65000| ≤ 1 :=
  pause_start_roundtrip ⟨1, 100, some 0, TimerStatus.running⟩ 0 30000 65000 rfl rfl (by decide)

end GltTimer
